import Mathlib

/-!
Verification of the Data Fusion & Sensor Calibration spec of the
air-quality-management-system repository against its source.

The code that decides most claims lives in the frontend:
`src/frontend/src/components/charts/ValidationChart.jsx` (sensor-vs-satellite
validation) and the AQI utility module (concatenated into
`src/frontend/src/components/common/Button.jsx`, `utils/aqi.js`).
JavaScript numbers are modelled as exact rationals (`ℚ`); the claims under
study involve only arithmetic whose outcome agrees between IEEE doubles and
exact arithmetic at the inputs considered.  A possibly-absent field
(`null`/`undefined`) is an `Option ℚ`; JavaScript truthiness of a numeric
field (`x` is falsy exactly when it is `null`, `undefined` or `0`) is
`truthyNum`.
-/

namespace AQMS

/-- One element of the `data` prop of `ValidationChart`: a comparison data
point with optional timestamp, sensor value and satellite value
(`ValidationChart.propTypes`). -/
structure DataPoint where
  timestamp : Option String
  sensor_value : Option ℚ
  satellite_value : Option ℚ
deriving DecidableEq, Repr

/-- JavaScript truthiness of an optional numeric field: falsy when absent or
zero. -/
def truthyNum : Option ℚ → Bool
  | none => false
  | some x => x ≠ 0

/-- The default of the `tolerance` prop of `ValidationChart` (`tolerance = 30`). -/
def defaultTolerance : ℚ := 30

/-- `Math.abs(((point.sensor_value - point.satellite_value) / point.satellite_value) * 100)`
guarded by `point.sensor_value && point.satellite_value`, else `0`
(the `deviation` field of `chartData` in ValidationChart.jsx). -/
def chartDeviation (p : DataPoint) : ℚ :=
  if truthyNum p.sensor_value && truthyNum p.satellite_value then
    |((p.sensor_value.getD 0 - p.satellite_value.getD 0) / p.satellite_value.getD 0) * 100|
  else 0

/-- The `is_anomalous` field of `chartData`: the same deviation compared
against `tolerance`, `false` when either value is falsy. -/
def chartAnomalous (tolerance : ℚ) (p : DataPoint) : Bool :=
  if truthyNum p.sensor_value && truthyNum p.satellite_value then
    decide (|((p.sensor_value.getD 0 - p.satellite_value.getD 0) / p.satellite_value.getD 0) * 100| > tolerance)
  else false

/-- One processed entry of `chartData`. -/
structure ChartPoint where
  base : DataPoint
  deviation : ℚ
  is_anomalous : Bool
deriving DecidableEq, Repr

/-- `chartData = data.map(...)` in ValidationChart.jsx. -/
def chartData (tolerance : ℚ) (data : List DataPoint) : List ChartPoint :=
  data.map fun p => ⟨p, chartDeviation p, chartAnomalous tolerance p⟩

/-- The filter `(p) => p.sensor_value && p.satellite_value` applied in
`summary` of ValidationChart.jsx. -/
def isValidPoint (p : DataPoint) : Bool :=
  truthyNum p.sensor_value && truthyNum p.satellite_value

/-- `validPoints = data.filter((p) => p.sensor_value && p.satellite_value)`. -/
def validPoints (data : List DataPoint) : List DataPoint :=
  data.filter isValidPoint

/-- `anomalousPoints = validPoints.filter((p) => Math.abs(...) > tolerance)`. -/
def anomalousPoints (tolerance : ℚ) (data : List DataPoint) : List DataPoint :=
  (validPoints data).filter fun p =>
    decide (|((p.sensor_value.getD 0 - p.satellite_value.getD 0) / p.satellite_value.getD 0) * 100| > tolerance)

/-- The object returned by the `summary` memo of ValidationChart.jsx. -/
structure Summary where
  total : ℕ
  anomalous : ℕ
  anomalyRate : ℚ
deriving DecidableEq, Repr

/-- The `summary` memo: `null` on empty `data`, otherwise counts of valid and
anomalous points and the anomaly rate in percent (0 when no valid points). -/
def summary (tolerance : ℚ) (data : List DataPoint) : Option Summary :=
  if data.length = 0 then none
  else
    let v := validPoints data
    let a := anomalousPoints tolerance data
    some ⟨v.length, a.length,
      if v.length > 0 then ((a.length : ℚ) / (v.length : ℚ)) * 100 else 0⟩

/-- The Rate badge of ValidationChart.jsx:
`summary.anomalyRate > 20 ? 'danger' : 'success'`. -/
def badgeVariant (s : Summary) : String :=
  if s.anomalyRate > 20 then "danger" else "success"

/-! ## AQI utility (`utils/aqi.js`) -/

/-- One entry of the `AQI_LEVELS` breakpoint table. -/
structure AqiLevel where
  min : ℚ
  max : ℚ
  label : String
  color : String
  bgClass : String
deriving DecidableEq, Repr

def goodLevel : AqiLevel := ⟨0, 50, "Good", "#00e400", "aqi-badge-good"⟩

def moderateLevel : AqiLevel := ⟨51, 100, "Moderate", "#ffff00", "aqi-badge-moderate"⟩

def usgLevel : AqiLevel :=
  ⟨101, 150, "Unhealthy for Sensitive Groups", "#ff7e00", "aqi-badge-unhealthy-sensitive"⟩

def unhealthyLevel : AqiLevel := ⟨151, 200, "Unhealthy", "#ff0000", "aqi-badge-unhealthy"⟩

def veryUnhealthyLevel : AqiLevel :=
  ⟨201, 300, "Very Unhealthy", "#8f3f97", "aqi-badge-very-unhealthy"⟩

def hazardousLevel : AqiLevel := ⟨301, 500, "Hazardous", "#7e0023", "aqi-badge-hazardous"⟩

/-- The `AQI_LEVELS` table of `utils/aqi.js` (its `description` strings are
omitted as presentational). `AQI_LEVELS[0]` is `goodLevel` and `AQI_LEVELS[5]`
is `hazardousLevel`. -/
def AQI_LEVELS : List AqiLevel :=
  [goodLevel, moderateLevel, usgLevel, unhealthyLevel, veryUnhealthyLevel, hazardousLevel]

/-- `value >= level.min && value <= level.max`, the predicate passed to
`AQI_LEVELS.find` in `getAqiLevel`. -/
def levelMatches (v : ℚ) (l : AqiLevel) : Bool :=
  decide (l.min ≤ v) && decide (v ≤ l.max)

/-- `getAqiLevel` of `utils/aqi.js`: `AQI_LEVELS[0]` for `null` or negative
input, otherwise the first matching band, falling back to `AQI_LEVELS[5]`. -/
def getAqiLevel (value : Option ℚ) : AqiLevel :=
  match value with
  | none => goodLevel
  | some v =>
    if v < 0 then goodLevel
    else (AQI_LEVELS.find? (levelMatches v)).getD hazardousLevel

/-- `getAqiColor` of `utils/aqi.js`. -/
def getAqiColor (value : Option ℚ) : String :=
  (getAqiLevel value).color

/-- `getAqiBadgeClass` of `utils/aqi.js`. -/
def getAqiBadgeClass (value : Option ℚ) : String :=
  (getAqiLevel value).bgClass

/-- `getAqiLabel` of `utils/aqi.js`. -/
def getAqiLabel (value : Option ℚ) : String :=
  (getAqiLevel value).label

/-! ## Fusion Aggregator (spec §4.5)

The repository under `src/` contains only the frontend, deployment scripts
and planning documents; the backend Fusion Aggregator itself is absent, so it
is modelled from the spec here. -/

/-- A fused output point (spec §3 data model, restricted to the fields the
claims mention). -/
structure FusedDataPoint where
  fusedValue : ℚ
  confidence : ℚ
  sources : List String
deriving DecidableEq, Repr

/-- Mean of a nonempty list of rationals; 0 on the empty list (never applied
to it below). -/
def meanQ (xs : List ℚ) : ℚ :=
  if xs.length = 0 then 0 else xs.sum / (xs.length : ℚ)

/-- Modelled from the spec: §4.5 Fusion Aggregator.  Missing from `src/`
(only the frontend caller `airQualityApi.triggerFusion` exists).  Given the
calibrated sensor values and the optional satellite value for one cell and
window, produce at most one `FusedDataPoint`: both present → confidence-
weighted average with the sensor weight derived from the validation
correlation and a fixed satellite baseline weight; sensor only → the mean
sensor value; satellite only → the satellite value at its quality-derived
confidence; neither → no point.  The exact confidence formulas are not pinned
by the spec; representative agreement-and-density expressions are used, which
the claims settled here do not depend on. -/
def fuseCell (corr satConf : ℚ) (sensorVals : List ℚ) (satVal : Option ℚ) :
    Option FusedDataPoint :=
  match sensorVals, satVal with
  | [], none => none
  | [], some sv => some ⟨sv, satConf, ["satellite"]⟩
  | s :: rest, none =>
    some ⟨meanQ (s :: rest), 1 / 2, ["sensor"]⟩
  | s :: rest, some sv =>
    let ws : ℚ := max corr 0
    let m := meanQ (s :: rest)
    let fused := (ws * m + 1 * sv) / (ws + 1)
    let agreement := 1 / (1 + |m - sv|)
    let density := ((s :: rest).length : ℚ) / ((s :: rest).length + 1 : ℚ)
    some ⟨fused, agreement * density, ["sensor", "satellite"]⟩

/-! ## Calibration training (spec §4.4)

Also absent from `src/` (only the frontend caller
`airQualityApi.trainCalibration` exists); modelled from the spec. -/

/-- One training sample (spec §4.4 feature set). -/
structure Sample where
  rawValue : ℚ
  temperature : ℚ
  humidity : ℚ
  referenceValue : ℚ
  hourOfDay : ℚ
  sensorAgeDays : ℚ
deriving DecidableEq, Repr

/-- Outcome of a training call (spec §4.4 / §6). -/
inductive TrainOutcome where
  | trained (version : ℕ) (rmse : ℚ)
  | retained (version : ℕ) (rmse : ℚ)
  | insufficientData
deriving DecidableEq, Repr

/-- The per-pollutant calibration model state: the active version pointer,
its held-out RMSE, and the next version number to assign. -/
structure CalibrationState where
  activeVersion : Option ℕ
  activeRmse : Option ℚ
  nextVersion : ℕ
deriving DecidableEq, Repr

/-- The minimum sample count required for training (spec default 30). -/
def minSampleCount : ℕ := 30

/-- Modelled from the spec: §4.4 `train(samples)`.  Missing from `src/`.
Fewer than `minSampleCount` samples → `insufficientData` and the state is
unchanged.  Otherwise a new version is fitted (its held-out RMSE supplied by
the regression fit, abstracted as `fitRmse`); it becomes active only when no
active version exists or its RMSE strictly improves on the active one, else
it is retained without moving the active pointer. -/
def trainCalibration (st : CalibrationState) (samples : List Sample)
    (fitRmse : ℚ) : TrainOutcome × CalibrationState :=
  if samples.length < minSampleCount then
    (.insufficientData, st)
  else
    let v := st.nextVersion
    match st.activeRmse with
    | none =>
      (.trained v fitRmse, ⟨some v, some fitRmse, v + 1⟩)
    | some oldRmse =>
      if fitRmse < oldRmse then
        (.trained v fitRmse, ⟨some v, some fitRmse, v + 1⟩)
      else
        (.retained v fitRmse, ⟨st.activeVersion, st.activeRmse, v + 1⟩)

/-! ## Theorems -/

/-- Evaluation of `chartDeviation` when both values are present and nonzero. -/
theorem chartDeviation_some (s sat : ℚ) (t : Option String)
    (hs : s ≠ 0) (hsat : sat ≠ 0) :
    chartDeviation ⟨t, some s, some sat⟩ = |((s - sat) / sat) * 100| := by
  simp [chartDeviation, truthyNum, hs, hsat]

/-- Evaluation of `chartAnomalous` when both values are present and nonzero. -/
theorem chartAnomalous_some (tol s sat : ℚ) (t : Option String)
    (hs : s ≠ 0) (hsat : sat ≠ 0) :
    chartAnomalous tol ⟨t, some s, some sat⟩ =
      decide (|((s - sat) / sat) * 100| > tol) := by
  simp [chartAnomalous, truthyNum, hs, hsat]

/-- C1, counterexample: the claim quantifies over every pair with a nonzero
satellite value, but `chartData` also requires a truthy (nonzero, present)
sensor value.  At sensor value 0 against satellite value 10 the relative
deviation is 100%, above the default 30% tolerance, yet the point is
classified not anomalous. -/
theorem c1_counterexample :
    (10 : ℚ) ≠ 0 ∧
    |(((0 : ℚ) - 10) / 10) * 100| > defaultTolerance ∧
    chartAnomalous defaultTolerance ⟨none, some 0, some 10⟩ = false := by
  refine ⟨by norm_num, by norm_num [defaultTolerance], ?_⟩
  simp [chartAnomalous, truthyNum]

/-- C1, amended: for every pair in which both the sensor and the satellite
value are present and nonzero, `is_anomalous` holds exactly when the relative
deviation `|sensor − satellite| / satellite` (in percent) exceeds the
tolerance, whose default is 30. -/
theorem c1_anomalous_iff_deviation (tol s sat : ℚ) (p : DataPoint)
    (hs : p.sensor_value = some s) (hsat : p.satellite_value = some sat)
    (hs0 : s ≠ 0) (hsat0 : sat ≠ 0) :
    (chartAnomalous tol p = true ↔ |((s - sat) / sat) * 100| > tol) ∧
    defaultTolerance = 30 := by
  refine ⟨?_, rfl⟩
  simp [chartAnomalous, truthyNum, hs, hsat, hs0, hsat0]

/-- Witness for C1: the spec's own anomalous example, sensor 80 against
satellite 34, deviation 2300/17 ≈ 135% > 30. -/
theorem c1_anomalous_iff_deviation_witness :
    chartAnomalous defaultTolerance ⟨none, some 80, some 34⟩ = true := by
  refine ((c1_anomalous_iff_deviation defaultTolerance 80 34 ⟨none, some 80, some 34⟩
    rfl rfl (by norm_num) (by norm_num)).1).mpr ?_
  rw [abs_of_nonneg (by norm_num)]
  norm_num [defaultTolerance]

/-- C2: a pair with satellite reference value 0 is excluded from the valid
points (the denominator of the anomaly rate) and from the anomalous points
(the numerator); its chart deviation is the defined value 0 and it is never
anomalous — the embedding is total, no division error can arise. -/
theorem c2_zero_satellite_excluded (tol : ℚ) (p : DataPoint) (data : List DataPoint)
    (h : p.satellite_value = some 0) :
    validPoints (p :: data) = validPoints data ∧
    anomalousPoints tol (p :: data) = anomalousPoints tol data ∧
    chartDeviation p = 0 ∧
    chartAnomalous tol p = false := by
  have hv : isValidPoint p = false := by
    simp [isValidPoint, truthyNum, h]
  have h1 : validPoints (p :: data) = validPoints data := by
    simp [validPoints, List.filter_cons, hv]
  refine ⟨h1, ?_, ?_, ?_⟩
  · simp [anomalousPoints, h1]
  · simp [chartDeviation, truthyNum, h]
  · simp [chartAnomalous, truthyNum, h]

/-- Witness for C2 at tolerance 30, a zero-reference point against a
one-point list. -/
theorem c2_zero_satellite_excluded_witness :
    validPoints (⟨none, some 5, some 0⟩ :: [⟨none, some 4, some 4⟩]) =
      validPoints [⟨none, some 4, some 4⟩] ∧
    chartAnomalous defaultTolerance ⟨none, some 5, some 0⟩ = false := by
  have h := c2_zero_satellite_excluded defaultTolerance ⟨none, some 5, some 0⟩
    [⟨none, some 4, some 4⟩] rfl
  exact ⟨h.1, h.2.2.2⟩

/-- C4: a pair whose sensor value equals its satellite value has chart
deviation 0 and is not anomalous, for any nonnegative tolerance.  This covers
equal nonzero values (deviation `|0/v·100| = 0`), equal zero values and two
absent values (the falsy branch). -/
theorem c4_equal_values_valid (tol : ℚ) (p : DataPoint)
    (heq : p.sensor_value = p.satellite_value) (htol : 0 ≤ tol) :
    chartDeviation p = 0 ∧ chartAnomalous tol p = false := by
  have hsat : p.satellite_value = p.sensor_value := heq.symm
  cases hsv : p.sensor_value with
  | none =>
    rw [hsv] at hsat
    constructor <;> simp [chartDeviation, chartAnomalous, truthyNum, hsv, hsat]
  | some v =>
    rw [hsv] at hsat
    by_cases hv : v = 0
    · subst hv
      constructor <;> simp [chartDeviation, chartAnomalous, truthyNum, hsv, hsat]
    · constructor
      · simp [chartDeviation, truthyNum, hsv, hsat, hv]
      · simp [chartAnomalous, truthyNum, hsv, hsat, hv]
        exact htol

/-- Witness for C4 at sensor = satellite = 5 and the default tolerance. -/
theorem c4_equal_values_valid_witness :
    chartDeviation ⟨none, some 5, some 5⟩ = 0 ∧
    chartAnomalous defaultTolerance ⟨none, some 5, some 5⟩ = false :=
  c4_equal_values_valid defaultTolerance ⟨none, some 5, some 5⟩ rfl
    (by norm_num [defaultTolerance])

/-- C5: the spec's end-to-end examples.  Sensor 40 vs satellite 34 gives
deviation 300/17 ≈ 17.6% < 30, classified valid; sensor 80 vs satellite 34
gives deviation 2300/17 ≈ 135.3% > 30, classified anomalous. -/
theorem c5_spec_examples :
    chartDeviation ⟨none, some 40, some 34⟩ = 300 / 17 ∧
    (176 / 10 : ℚ) < 300 / 17 ∧ (300 / 17 : ℚ) < 177 / 10 ∧
    chartDeviation ⟨none, some 40, some 34⟩ < defaultTolerance ∧
    chartAnomalous defaultTolerance ⟨none, some 40, some 34⟩ = false ∧
    chartDeviation ⟨none, some 80, some 34⟩ = 2300 / 17 ∧
    (135 : ℚ) < 2300 / 17 ∧ (2300 / 17 : ℚ) < 136 ∧
    chartDeviation ⟨none, some 80, some 34⟩ > defaultTolerance ∧
    chartAnomalous defaultTolerance ⟨none, some 80, some 34⟩ = true := by
  have d1 : chartDeviation ⟨none, some 40, some 34⟩ = 300 / 17 := by
    rw [chartDeviation_some 40 34 none (by norm_num) (by norm_num),
      abs_of_nonneg (by norm_num)]
    norm_num
  have d2 : chartDeviation ⟨none, some 80, some 34⟩ = 2300 / 17 := by
    rw [chartDeviation_some 80 34 none (by norm_num) (by norm_num),
      abs_of_nonneg (by norm_num)]
    norm_num
  have a1 : chartAnomalous defaultTolerance ⟨none, some 40, some 34⟩ = false := by
    rw [chartAnomalous_some defaultTolerance 40 34 none (by norm_num) (by norm_num),
      decide_eq_false_iff_not, abs_of_nonneg (by norm_num)]
    norm_num [defaultTolerance]
  have a2 : chartAnomalous defaultTolerance ⟨none, some 80, some 34⟩ = true := by
    rw [chartAnomalous_some defaultTolerance 80 34 none (by norm_num) (by norm_num),
      decide_eq_true_eq, abs_of_nonneg (by norm_num)]
    norm_num [defaultTolerance]
  refine ⟨d1, by norm_num, by norm_num, ?_, a1, d2, by norm_num, by norm_num, ?_, a2⟩
  · rw [d1]; norm_num [defaultTolerance]
  · rw [d2]; norm_num [defaultTolerance]

/-- C3, counterexample: the claim requires fewer than 3 pairs to be reported
as invalid, and a 50% anomaly-rate threshold.  The code has neither: its only
classification is the Rate badge, `anomalyRate > 20 ? 'danger' : 'success'`.
Two agreeing pairs produce the reachable summary ⟨2, 0, 0⟩ — fewer than 3
pairs — yet the badge is "success", not "danger". -/
theorem c3_counterexample :
    summary defaultTolerance [⟨none, some 10, some 10⟩, ⟨none, some 12, some 12⟩] =
      some ⟨2, 0, 0⟩ ∧
    (2 : ℕ) < 3 ∧
    badgeVariant ⟨2, 0, 0⟩ = "success" ∧
    badgeVariant ⟨2, 0, 0⟩ ≠ "danger" := by
  refine ⟨?_, by norm_num, ?_, ?_⟩
  · norm_num [summary, validPoints, anomalousPoints, isValidPoint, truthyNum,
      List.filter, defaultTolerance]
  · rw [badgeVariant, if_neg (by norm_num)]
  · rw [badgeVariant, if_neg (by norm_num)]
    simp

/-- C3, amended: the badge is "danger" exactly when the anomaly rate exceeds
20% — there is no 50% threshold and no minimum-pair-count rule — and with no
data points no summary is produced at all (`summary` is `null`). -/
theorem c3_badge_threshold (s : Summary) (tol : ℚ) :
    (badgeVariant s = "danger" ↔ s.anomalyRate > 20) ∧
    summary tol [] = none := by
  refine ⟨?_, rfl⟩
  rw [badgeVariant]
  by_cases h : s.anomalyRate > 20
  · rw [if_pos h]; exact iff_of_true rfl h
  · rw [if_neg h]; exact iff_of_false (by simp) h

/-- C10: the anomaly-rate computation is total — when no valid pairs exist
the rate is 0, not a division error — and a point whose sensor value is
missing or 0 is excluded from both the valid points (denominator) and the
anomalous points (numerator). -/
theorem c10_rate_total_sensor_excluded (tol : ℚ) (data : List DataPoint) (p : DataPoint) :
    (validPoints data = [] → ∀ s, summary tol data = some s → s.anomalyRate = 0) ∧
    ((p.sensor_value = none ∨ p.sensor_value = some 0) →
      validPoints (p :: data) = validPoints data ∧
      anomalousPoints tol (p :: data) = anomalousPoints tol data) := by
  constructor
  · intro hv s hs
    have ha : anomalousPoints tol data = [] := by simp [anomalousPoints, hv]
    by_cases hd : data.length = 0
    · simp [summary, hd] at hs
    · have hsum : summary tol data = some ⟨0, 0, 0⟩ := by
        rw [summary, if_neg hd]
        simp [hv, ha]
      rw [hsum] at hs
      cases hs
      rfl
  · intro hsv
    have hv2 : isValidPoint p = false := by
      rcases hsv with h | h <;> simp [isValidPoint, truthyNum, h]
    have h1 : validPoints (p :: data) = validPoints data := by
      simp [validPoints, List.filter_cons, hv2]
    exact ⟨h1, by simp [anomalousPoints, h1]⟩

/-- Witness for C10: a one-point list with no valid pair has anomaly rate 0,
and a zero-sensor point is dropped from the valid points. -/
theorem c10_rate_total_sensor_excluded_witness :
    (Summary.mk 0 0 0).anomalyRate = 0 ∧
    validPoints ((⟨none, some 0, some 5⟩ : DataPoint) :: [⟨none, none, none⟩]) =
      validPoints [(⟨none, none, none⟩ : DataPoint)] := by
  constructor
  · exact (c10_rate_total_sensor_excluded defaultTolerance [⟨none, none, none⟩]
      ⟨none, some 0, some 5⟩).1
      (by simp [validPoints, isValidPoint, truthyNum, List.filter])
      ⟨0, 0, 0⟩
      (by simp [summary, validPoints, anomalousPoints, isValidPoint, truthyNum,
        List.filter])
  · exact ((c10_rate_total_sensor_excluded defaultTolerance [⟨none, none, none⟩]
      ⟨none, some 0, some 5⟩).2 (Or.inr rfl)).1

/-- C6: the three AQI getters are each the corresponding field of
`getAqiLevel`, and `getAqiLevel` always returns an entry of the single
`AQI_LEVELS` breakpoint table — a pure lookup specified once. -/
theorem c6_aqi_getters_consistent (v : Option ℚ) :
    getAqiColor v = (getAqiLevel v).color ∧
    getAqiLabel v = (getAqiLevel v).label ∧
    getAqiBadgeClass v = (getAqiLevel v).bgClass ∧
    getAqiLevel v ∈ AQI_LEVELS := by
  refine ⟨rfl, rfl, rfl, ?_⟩
  cases v with
  | none => simp [getAqiLevel, AQI_LEVELS]
  | some x =>
    simp only [getAqiLevel]
    by_cases hx : x < 0
    · simp [hx, AQI_LEVELS]
    · rw [if_neg hx]
      cases hf : AQI_LEVELS.find? (levelMatches x) with
      | none => simp [AQI_LEVELS]
      | some l => simpa using List.mem_of_find?_eq_some hf

/-- C9: edge behaviour of `getAqiLevel` (a total function): `null` and
negative inputs return the Good band; inputs above 500, and inputs in any of
the five gaps between consecutive bands (50–51, 100–101, 150–151, 200–201,
300–301), fall outside every band and return the Hazardous band via the
fallback. -/
theorem c9_getAqiLevel_edges :
    getAqiLevel none = goodLevel ∧
    (∀ v : ℚ, v < 0 → getAqiLevel (some v) = goodLevel) ∧
    (∀ v : ℚ, 500 < v → getAqiLevel (some v) = hazardousLevel) ∧
    (∀ v : ℚ,
      (50 < v ∧ v < 51) ∨ (100 < v ∧ v < 101) ∨ (150 < v ∧ v < 151) ∨
        (200 < v ∧ v < 201) ∨ (300 < v ∧ v < 301) →
      getAqiLevel (some v) = hazardousLevel) := by
  refine ⟨rfl, ?_, ?_, ?_⟩
  · intro v hv
    simp [getAqiLevel, hv]
  · intro v hv
    have hnone : AQI_LEVELS.find? (levelMatches v) = none := by
      rw [List.find?_eq_none]
      intro l hl
      simp only [AQI_LEVELS, List.mem_cons, List.not_mem_nil, or_false] at hl
      rcases hl with h | h | h | h | h | h <;> subst h <;>
        simp [levelMatches, goodLevel, moderateLevel, usgLevel, unhealthyLevel,
          veryUnhealthyLevel, hazardousLevel] <;>
        intro h1 <;> linarith
    simp [getAqiLevel, show ¬ v < 0 by linarith, hnone]
  · intro v hv
    have hvneg : ¬ v < 0 := by
      rcases hv with ⟨h1, h2⟩ | ⟨h1, h2⟩ | ⟨h1, h2⟩ | ⟨h1, h2⟩ | ⟨h1, h2⟩ <;> linarith
    have hnone : AQI_LEVELS.find? (levelMatches v) = none := by
      rw [List.find?_eq_none]
      intro l hl
      simp only [AQI_LEVELS, List.mem_cons, List.not_mem_nil, or_false] at hl
      rcases hv with ⟨h1, h2⟩ | ⟨h1, h2⟩ | ⟨h1, h2⟩ | ⟨h1, h2⟩ | ⟨h1, h2⟩ <;>
        rcases hl with h | h | h | h | h | h <;> subst h <;>
        simp [levelMatches, goodLevel, moderateLevel, usgLevel, unhealthyLevel,
          veryUnhealthyLevel, hazardousLevel] <;>
        intro h3 <;> linarith
    simp [getAqiLevel, hvneg, hnone]

/-- Witness for C9 at −1, 501 and one non-integer value inside each of the
five inter-band gaps: 50.5, 100.5, 150.5, 200.5 and 300.5. -/
theorem c9_getAqiLevel_edges_witness :
    getAqiLevel (some (-1)) = goodLevel ∧
    getAqiLevel (some 501) = hazardousLevel ∧
    getAqiLevel (some (101 / 2)) = hazardousLevel ∧
    getAqiLevel (some (201 / 2)) = hazardousLevel ∧
    getAqiLevel (some (301 / 2)) = hazardousLevel ∧
    getAqiLevel (some (401 / 2)) = hazardousLevel ∧
    getAqiLevel (some (601 / 2)) = hazardousLevel :=
  ⟨c9_getAqiLevel_edges.2.1 (-1) (by norm_num),
   c9_getAqiLevel_edges.2.2.1 501 (by norm_num),
   c9_getAqiLevel_edges.2.2.2 (101 / 2) (Or.inl (by norm_num)),
   c9_getAqiLevel_edges.2.2.2 (201 / 2) (Or.inr (Or.inl (by norm_num))),
   c9_getAqiLevel_edges.2.2.2 (301 / 2) (Or.inr (Or.inr (Or.inl (by norm_num)))),
   c9_getAqiLevel_edges.2.2.2 (401 / 2) (Or.inr (Or.inr (Or.inr (Or.inl (by norm_num))))),
   c9_getAqiLevel_edges.2.2.2 (601 / 2) (Or.inr (Or.inr (Or.inr (Or.inr (by norm_num)))))⟩

/-- C7 (spec-modelled, §4.5): a cell/window with zero contributing sources —
no sensor value and no satellite value — yields no `FusedDataPoint`, and
every point that is emitted carries a nonempty contributing-source list. -/
theorem c7_no_source_no_point (corr satConf : ℚ) (sensorVals : List ℚ)
    (satVal : Option ℚ) :
    (sensorVals = [] → satVal = none →
      fuseCell corr satConf sensorVals satVal = none) ∧
    (∀ fp, fuseCell corr satConf sensorVals satVal = some fp →
      fp.sources ≠ []) := by
  constructor
  · rintro rfl rfl
    rfl
  · intro fp hfp
    cases sensorVals with
    | nil =>
      cases satVal with
      | none => simp [fuseCell] at hfp
      | some sv =>
        simp only [fuseCell, Option.some.injEq] at hfp
        rw [← hfp]
        simp
    | cons s rest =>
      cases satVal with
      | none =>
        simp only [fuseCell, Option.some.injEq] at hfp
        rw [← hfp]
        simp
      | some sv =>
        simp only [fuseCell, Option.some.injEq] at hfp
        rw [← hfp]
        simp

/-- Witness for C7: the empty cell emits nothing; a sensor-only cell emits a
point whose source list is nonempty. -/
theorem c7_no_source_no_point_witness :
    fuseCell 1 1 [] none = none ∧
    (FusedDataPoint.mk 5 (1 / 2) ["sensor"]).sources ≠ [] := by
  constructor
  · exact (c7_no_source_no_point 1 1 [] none).1 rfl rfl
  · refine (c7_no_source_no_point 1 1 [5] none).2 ⟨5, 1 / 2, ["sensor"]⟩ ?_
    simp [fuseCell, meanQ]

/-- C8 (spec-modelled, §4.4): training with fewer than the minimum sample
count (30) returns `insufficientData` and leaves the whole calibration state
— in particular the active model version — unchanged. -/
theorem c8_insufficient_data_keeps_model (st : CalibrationState)
    (samples : List Sample) (fitRmse : ℚ)
    (h : samples.length < minSampleCount) :
    (trainCalibration st samples fitRmse).1 = TrainOutcome.insufficientData ∧
    (trainCalibration st samples fitRmse).2 = st ∧
    (trainCalibration st samples fitRmse).2.activeVersion = st.activeVersion ∧
    minSampleCount = 30 := by
  rw [trainCalibration, if_pos h]
  exact ⟨rfl, rfl, rfl, rfl⟩

/-- Witness for C8: the empty sample list against a state with active
version 1 is rejected and the active version stays 1. -/
theorem c8_insufficient_data_keeps_model_witness :
    ([] : List Sample).length < minSampleCount ∧
    (trainCalibration ⟨some 1, some 2, 2⟩ [] 0).1 = TrainOutcome.insufficientData ∧
    (trainCalibration ⟨some 1, some 2, 2⟩ [] 0).2.activeVersion = some 1 := by
  refine ⟨by norm_num [minSampleCount], ?_, ?_⟩
  · exact (c8_insufficient_data_keeps_model ⟨some 1, some 2, 2⟩ [] 0
      (by norm_num [minSampleCount])).1
  · exact (c8_insufficient_data_keeps_model ⟨some 1, some 2, 2⟩ [] 0
      (by norm_num [minSampleCount])).2.2.1

end AQMS
